import Mathlib

/-!
Verification of the DSHIELD crowd-safety platform (edge-computing tier and
backend API server) against its natural-language specification.  Python
source functions are shallowly embedded as executable Lean definitions over
exact rationals; Python exceptions are modelled with Except, Python dicts
with association lists, and the bounded deques/rings with explicit list
operations.
-/

namespace DSHIELD

/-! ### Python round on rationals

Python's builtin round uses banker's rounding (round half to even); the
Device Monitor and Edge Processor round scores to a fixed number of decimal
digits.  We model round(x, d) exactly on rationals. -/

/-- Round a rational to the nearest integer, ties going to the even integer
(the rounding mode of Python's builtin round). -/
def roundHalfEven (x : ℚ) : ℤ :=
  let f : ℤ := ⌊x⌋
  let r : ℚ := x - f
  if r < 1/2 then f
  else if 1/2 < r then f + 1
  else if f % 2 = 0 then f else f + 1

/-- Model of Python round(x, d): round half to even at the d-th decimal. -/
def pyRound (d : ℕ) (x : ℚ) : ℚ :=
  (roundHalfEven (x * (10 : ℚ) ^ d)) / (10 : ℚ) ^ d

theorem roundHalfEven_intCast (n : ℤ) : roundHalfEven (n : ℚ) = n := by
  simp [roundHalfEven]

theorem pyRound_intCast (d : ℕ) (n : ℤ) : pyRound d ((n : ℚ)) = n := by
  have h10 : ((10 : ℚ) ^ d) = ((10 ^ d : ℤ) : ℚ) := by push_cast; ring
  have hcast : ((n : ℚ)) * (10 : ℚ) ^ d = (((n * 10 ^ d : ℤ)) : ℚ) := by push_cast; ring
  have hne : ((10 : ℚ) ^ d) ≠ 0 := by positivity
  rw [pyRound, hcast, roundHalfEven_intCast]
  push_cast
  field_simp

/-! ### Edge Processor: crowd density bucketing (edge_processor.py)

EdgeProcessor reads grid.area_sqm (default 750) and grid.density_thresholds
(default normal 60, moderate 100, high 150, critical 200) from the
configuration.  calculate_crowd_density buckets people_count into a level
low/moderate/high/critical and computes a capped percentage;
get_threshold_status buckets into normal/moderate/high/critical. -/

structure DensityThresholds where
  normal : ℕ
  moderate : ℕ
  high : ℕ
  critical : ℕ
deriving DecidableEq, Repr

/-- Default density thresholds, as hard-coded in EdgeProcessor.__init__. -/
def defaultDensityThresholds : DensityThresholds :=
  { normal := 60, moderate := 100, high := 150, critical := 200 }

/-- Default grid area in square metres (grid.area_sqm default 750). -/
def defaultGridArea : ℚ := 750

/-- Density level if-chain of EdgeProcessor.calculate_crowd_density. -/
def density_level (thr : DensityThresholds) (people_count : ℕ) : String :=
  if people_count ≤ thr.normal then "low"
  else if people_count ≤ thr.moderate then "moderate"
  else if people_count ≤ thr.high then "high"
  else "critical"

/-- Model of EdgeProcessor.calculate_crowd_density: returns the density
level string and the rounded capped percentage. -/
def calculate_crowd_density (area : ℚ) (thr : DensityThresholds)
    (people_count : ℕ) : String × ℚ :=
  let density_per_sqm : ℚ := (people_count : ℚ) / area
  let density_percentage : ℚ := min ((density_per_sqm / 4) * 100) 100
  (density_level thr people_count, pyRound 2 density_percentage)

/-- Model of EdgeProcessor.get_threshold_status. -/
def get_threshold_status (thr : DensityThresholds) (people_count : ℕ) : String :=
  if people_count ≤ thr.normal then "normal"
  else if people_count ≤ thr.moderate then "moderate"
  else if people_count ≤ thr.high then "high"
  else "critical"

/-- Rank of a density level string in the low < moderate < high < critical
order (used to state monotonicity). -/
def levelRank (s : String) : ℕ :=
  if s = "low" then 0
  else if s = "moderate" then 1
  else if s = "high" then 2
  else 3

/-- Rank of a threshold status string in the normal < moderate < high <
critical order. -/
def statusRank (s : String) : ℕ :=
  if s = "normal" then 0
  else if s = "moderate" then 1
  else if s = "high" then 2
  else 3

/-! ### Device Monitor: health score (device_monitor.py) -/

/-- Model of DeviceMonitor._calculate_health_score.  Inputs: CPU
temperature, overall CPU usage percent, memory percentage, the list of
per-mount disk-usage percentages, connectivity and camera availability.
Entries of the disk_usage dict that are not mount records (the io_stats
entry) carry no percentage key, so get('percentage', 0) yields 0 for them;
they are represented here by a 0 entry, which never exceeds 90. -/
def calculate_health_score (cpu_temp cpu_usage memory_usage : ℚ)
    (disk_percentages : List ℚ) (connectivity camera_available : Bool) : ℚ :=
  let score : ℚ := 100
  let score := if 70 < cpu_temp then score - min 30 ((cpu_temp - 70) * 2) else score
  let score := if 80 < cpu_usage then score - min 20 ((cpu_usage - 80) * 1) else score
  let score := if 85 < memory_usage then score - min 20 ((memory_usage - 85) * (3/2)) else score
  let score := score - 10 * ((disk_percentages.filter (fun p => 90 < p)).length : ℚ)
  let score := if connectivity then score else score - 15
  let score := if camera_available then score else score - 5
  max 0 (min 100 (pyRound 1 score))

theorem levelRank_density_level (thr : DensityThresholds) (c : ℕ) :
    levelRank (density_level thr c) =
      (if c ≤ thr.normal then 0 else if c ≤ thr.moderate then 1
       else if c ≤ thr.high then 2 else 3) := by
  unfold density_level levelRank
  split_ifs <;> first | omega | simp_all

theorem statusRank_get_threshold_status (thr : DensityThresholds) (c : ℕ) :
    statusRank (get_threshold_status thr c) =
      (if c ≤ thr.normal then 0 else if c ≤ thr.moderate then 1
       else if c ≤ thr.high then 2 else 3) := by
  unfold get_threshold_status statusRank
  split_ifs <;> first | omega | simp_all

/-- C4: with the default thresholds, people_count values 0, 60, 61, 100,
101, 150, 151, 300 map to levels low, low, moderate, moderate, high, high,
critical, critical and threshold statuses normal, normal, moderate,
moderate, high, high, critical, critical, and both the level and the
threshold status are monotone non-decreasing in people_count. -/
theorem C4_density_bucketing_monotone :
    ((calculate_crowd_density defaultGridArea defaultDensityThresholds 0).1 = "low" ∧
     (calculate_crowd_density defaultGridArea defaultDensityThresholds 60).1 = "low" ∧
     (calculate_crowd_density defaultGridArea defaultDensityThresholds 61).1 = "moderate" ∧
     (calculate_crowd_density defaultGridArea defaultDensityThresholds 100).1 = "moderate" ∧
     (calculate_crowd_density defaultGridArea defaultDensityThresholds 101).1 = "high" ∧
     (calculate_crowd_density defaultGridArea defaultDensityThresholds 150).1 = "high" ∧
     (calculate_crowd_density defaultGridArea defaultDensityThresholds 151).1 = "critical" ∧
     (calculate_crowd_density defaultGridArea defaultDensityThresholds 300).1 = "critical") ∧
    (get_threshold_status defaultDensityThresholds 0 = "normal" ∧
     get_threshold_status defaultDensityThresholds 60 = "normal" ∧
     get_threshold_status defaultDensityThresholds 61 = "moderate" ∧
     get_threshold_status defaultDensityThresholds 100 = "moderate" ∧
     get_threshold_status defaultDensityThresholds 101 = "high" ∧
     get_threshold_status defaultDensityThresholds 150 = "high" ∧
     get_threshold_status defaultDensityThresholds 151 = "critical" ∧
     get_threshold_status defaultDensityThresholds 300 = "critical") ∧
    (∀ a b : ℕ, a ≤ b →
      levelRank (calculate_crowd_density defaultGridArea defaultDensityThresholds a).1 ≤
        levelRank (calculate_crowd_density defaultGridArea defaultDensityThresholds b).1 ∧
      statusRank (get_threshold_status defaultDensityThresholds a) ≤
        statusRank (get_threshold_status defaultDensityThresholds b)) := by
  refine ⟨by decide, by decide, fun a b hab => ⟨?_, ?_⟩⟩
  · show levelRank (density_level defaultDensityThresholds a) ≤
      levelRank (density_level defaultDensityThresholds b)
    rw [levelRank_density_level, levelRank_density_level]
    split_ifs <;> omega
  · rw [statusRank_get_threshold_status, statusRank_get_threshold_status]
    split_ifs <;> omega

theorem C4_density_bucketing_monotone_witness :
    3 ≤ 200 ∧
    (levelRank (calculate_crowd_density defaultGridArea defaultDensityThresholds 3).1 ≤
       levelRank (calculate_crowd_density defaultGridArea defaultDensityThresholds 200).1 ∧
     statusRank (get_threshold_status defaultDensityThresholds 3) ≤
       statusRank (get_threshold_status defaultDensityThresholds 200)) :=
  ⟨by decide, C4_density_bucketing_monotone.2.2 3 200 (by decide)⟩

/-- C7 counterexample: the input with cpu_temp 75 (CPU usage 50, memory 50,
one disk mount at 50 percent, connectivity and camera fine) does not score
100 as claimed: the temperature exceeds the 70-degree threshold, so the
deduction min(30, 2*(75-70)) = 10 applies and the score is 90. -/
theorem C7_health_score_cex :
    calculate_health_score 75 50 50 [50] true true ≠ 100 ∧
    calculate_health_score 75 50 50 [50] true true = 90 := by
  constructor <;>
    norm_num [calculate_health_score, pyRound, roundHalfEven, List.filter, min_def, max_def]

/-- C7 (amended): the health score starts at 100 and applies the documented
deductions, clamped to the interval from 0 to 100.  Concretely the input
with cpu_temp 75 and everything else healthy scores 90 (deduction 10), with
cpu_temp 70 it scores 100 (no deduction, since the check is strict), with
cpu_temp 90 it scores 70, and for every cpu_temp of at least 85 the
temperature deduction caps at 30, scoring 70; the result always lies
between 0 and 100. -/
theorem C7_health_score :
    (calculate_health_score 75 50 50 [50] true true = 90) ∧
    (calculate_health_score 70 50 50 [50] true true = 100) ∧
    (calculate_health_score 90 50 50 [50] true true = 70) ∧
    (∀ t : ℚ, 85 ≤ t → calculate_health_score t 50 50 [50] true true = 70) ∧
    (∀ ct cu mu dp conn cam, 0 ≤ calculate_health_score ct cu mu dp conn cam ∧
      calculate_health_score ct cu mu dp conn cam ≤ 100) := by
  refine ⟨?_, ?_, ?_, fun t ht => ?_, fun ct cu mu dp conn cam => ⟨?_, ?_⟩⟩
  · norm_num [calculate_health_score, pyRound, roundHalfEven, List.filter, min_def, max_def]
  · norm_num [calculate_health_score, pyRound, roundHalfEven, List.filter, min_def, max_def]
  · norm_num [calculate_health_score, pyRound, roundHalfEven, List.filter, min_def, max_def]
  · have h70 : (70 : ℚ) < t := by linarith
    have hmin : min (30 : ℚ) ((t - 70) * 2) = 30 := min_eq_left (by linarith)
    simp only [calculate_health_score, if_pos h70, hmin]
    norm_num [pyRound, roundHalfEven, List.filter, min_def, max_def]
  · simp only [calculate_health_score]
    exact le_max_left 0 _
  · simp only [calculate_health_score]
    exact max_le (by norm_num) (min_le_left _ _)

theorem C7_health_score_witness :
    (85 : ℚ) ≤ 85 ∧ calculate_health_score 85 50 50 [50] true true = 70 :=
  ⟨by norm_num, C7_health_score.2.2.2.1 85 (by norm_num)⟩

/-! ### Messaging Client: publish and offline queue (mqtt_client.py)

MQTTClient.publish tries the underlying client only when self.connected is
true; a non-success return code or a raised exception routes the message to
_queue_message, which evicts the oldest entry (with a warning) when the
queue already holds max_queue_size entries.  When self.connected is false,
the body of the if is skipped and no exception occurs, so neither the send
nor the enqueue happens. -/

structure QueuedMessage where
  topic : String
  payload : String
  qos : ℕ
  retain : Bool
  timestamp : ℚ
deriving DecidableEq, Repr

structure MQTTState where
  connected : Bool
  message_queue : List QueuedMessage
deriving DecidableEq, Repr

/-- Queue bound from MQTTClient.__init__. -/
def max_queue_size : ℕ := 1000

/-- Model of MQTTClient._queue_message; the Bool records whether the
queue-full warning fired (oldest entry evicted). -/
def queue_message (st : MQTTState) (topic payload : String) (qos : ℕ)
    (retain : Bool) (now : ℚ) : MQTTState × Bool :=
  let (q, warned) :=
    if max_queue_size ≤ st.message_queue.length
    then (st.message_queue.drop 1, true)
    else (st.message_queue, false)
  ({ st with message_queue := q ++ [⟨topic, payload, qos, retain, now⟩] }, warned)

/-- Outcome of the underlying paho client's publish call, had it been
invoked: the returned result code, or an exception. -/
inductive PublishOutcome where
  | returned (rc : ℤ)
  | raised
deriving DecidableEq, Repr

/-- Model of MQTTClient.publish.  The second component records whether the
message was handed to the transport (the wire-send happened). -/
def publish (st : MQTTState) (topic payload : String) (qos : ℕ) (retain : Bool)
    (now : ℚ) (outcome : PublishOutcome) : MQTTState × Bool :=
  if st.connected then
    match outcome with
    | .returned rc =>
        if rc ≠ 0 then ((queue_message st topic payload qos retain now).1, false)
        else (st, true)
    | .raised => ((queue_message st topic payload qos retain now).1, false)
  else
    (st, false)

/-- C1: publishing while the client is disconnected leaves the state (and
in particular the offline queue) completely unchanged and sends nothing —
the message is silently dropped instead of being enqueued, for every queue
content and every outcome the transport would have produced. -/
theorem C1_publish_disconnected_drops (q : List QueuedMessage)
    (topic payload : String) (qos : ℕ) (retain : Bool) (now : ℚ)
    (outcome : PublishOutcome) :
    publish ⟨false, q⟩ topic payload qos retain now outcome = (⟨false, q⟩, false) := by
  simp [publish]

/-- C1 companion: the failure path that is reachable (send attempted while
connected, non-success code or exception) does enqueue, with the documented
FIFO bound: at the bound the oldest entry is evicted and the warning fires. -/
theorem C1_publish_failure_enqueues (st : MQTTState) (topic payload : String)
    (qos : ℕ) (retain : Bool) (now : ℚ) :
    (st.connected = true →
      publish st topic payload qos retain now .raised =
        ((queue_message st topic payload qos retain now).1, false)) ∧
    (st.message_queue.length < max_queue_size →
      (queue_message st topic payload qos retain now).1.message_queue.length =
        st.message_queue.length + 1) ∧
    (max_queue_size ≤ st.message_queue.length →
      (queue_message st topic payload qos retain now).1.message_queue.length =
        st.message_queue.length) ∧
    (max_queue_size ≤ st.message_queue.length →
      (queue_message st topic payload qos retain now).2 = true ∧
      (queue_message st topic payload qos retain now).1.message_queue =
        st.message_queue.drop 1 ++ [⟨topic, payload, qos, retain, now⟩]) := by
  refine ⟨fun hc => ?_, fun hlt => ?_, fun hfull => ?_, fun hfull => ?_⟩
  · simp [publish, hc]
  · have hne : ¬ max_queue_size ≤ st.message_queue.length := by omega
    simp [queue_message, if_neg hne]
  · have h1 : 1 ≤ st.message_queue.length := le_trans (by norm_num [max_queue_size]) hfull
    simp only [queue_message, if_pos hfull]
    simp [List.length_drop]
    omega
  · simp [queue_message, if_pos hfull]

theorem C1_publish_failure_enqueues_witness :
    ((⟨true, []⟩ : MQTTState).connected = true ∧
      publish ⟨true, []⟩ "t" "p" 1 false 0 .raised =
        ((queue_message ⟨true, []⟩ "t" "p" 1 false 0).1, false)) :=
  ⟨rfl, (C1_publish_failure_enqueues ⟨true, []⟩ "t" "p" 1 false 0).1 rfl⟩

/-! ### Edge Application: device-health loop (main.py monitor_device_health)

The loop body compares health_data with numeric thresholds.  In the health
record built by DeviceMonitor.get_health_status, memory_usage and
disk_usage are dicts (maps), and a Python comparison between a dict and an
int raises TypeError, which the surrounding try/except catches; the
publish call after the checks is then never reached.  We model the dynamic
typing of the compared values with PyVal and the raised exception with
Except. -/

inductive PyVal where
  | num (q : ℚ)
  | str (s : String)
  | dict (entries : List (String × PyVal))
deriving Repr

/-- Model of a Python greater-than between a value and an int: defined on
numbers, a TypeError on dicts and strings. -/
def pyGtNum : PyVal → ℚ → Except String Bool
  | .num q, c => .ok (decide (c < q))
  | .str _, _ => .error "TypeError"
  | .dict _, _ => .error "TypeError"

/-- Fields of the health record that the health loop inspects, with the
dynamic types produced by DeviceMonitor.get_health_status. -/
structure HealthRecord where
  cpu_temperature : ℚ
  memory_usage : PyVal
  disk_usage : PyVal

/-- Model of the try-body of one iteration of
DHSILEDEdgeApp.monitor_device_health after the health fetch: the three
warning checks in order, then the publish step.  Returns the list of
warnings when the publish step is reached; an error means the except branch
ran and the publish was skipped. -/
def monitor_device_health_iter (r : HealthRecord) : Except String (List String) :=
  match pyGtNum r.memory_usage 90 with
  | .error e => .error e
  | .ok memHigh =>
    match pyGtNum r.disk_usage 85 with
    | .error e => .error e
    | .ok diskHigh =>
      .ok ((if 80 < r.cpu_temperature then ["High CPU temperature"] else []) ++
        (if memHigh then ["High memory usage"] else []) ++
        (if diskHigh then ["High disk usage"] else []))

/-- C2 (refuted by the code): for every health record whose memory_usage
field is a map — which is what DeviceMonitor._get_memory_usage always
returns — the memory check raises TypeError, so the loop body always takes
the error branch and the publish step is never reached, contrary to the
claim that the error branch is unreachable. -/
theorem C2_health_loop_always_errors (r : HealthRecord)
    (hmem : ∃ es, r.memory_usage = .dict es) :
    monitor_device_health_iter r = .error "TypeError" := by
  obtain ⟨es, hes⟩ := hmem
  simp [monitor_device_health_iter, hes, pyGtNum]

/-- Concrete failing input: the record a healthy device produces
(cpu_temperature 45, memory percentage 50, one disk mount at 50). -/
theorem C2_health_loop_always_errors_witness :
    (∃ es, (HealthRecord.mk 45
        (.dict [("total", .num 8000000000), ("percentage", .num 50)])
        (.dict [("/", .dict [("percentage", .num 50)])])).memory_usage = .dict es) ∧
    monitor_device_health_iter (HealthRecord.mk 45
        (.dict [("total", .num 8000000000), ("percentage", .num 50)])
        (.dict [("/", .dict [("percentage", .num 50)])])) = .error "TypeError" :=
  ⟨⟨[("total", .num 8000000000), ("percentage", .num 50)], rfl⟩,
    C2_health_loop_always_errors _ ⟨[("total", .num 8000000000), ("percentage", .num 50)], rfl⟩⟩

/-! ### Emergency Detector: score enhancement (emergency_detector.py)

EmergencyDetector._enhance_detection copies the base per-class score map,
boosts fire and smoke (when color analysis is on) and accident (when
motion analysis applies, i.e. the detection history is non-empty), then
divides every entry by the total when the total is positive.  The three
heuristic contributions are each of the form min(1, nonnegative ratio), so
they are non-negative; the theorem quantifies over them. -/

structure EmergencyScores where
  normal : ℚ
  fire : ℚ
  smoke : ℚ
  accident : ℚ
  medical_emergency : ℚ
  structural_damage : ℚ
  flood : ℚ
  explosion : ℚ
deriving DecidableEq, Repr

/-- Sum of the eight per-class scores. -/
def sumScores (e : EmergencyScores) : ℚ :=
  e.normal + e.fire + e.smoke + e.accident + e.medical_emergency +
    e.structural_damage + e.flood + e.explosion

/-- Divide every score by t (the normalization loop of _enhance_detection). -/
def divScores (e : EmergencyScores) (t : ℚ) : EmergencyScores :=
  ⟨e.normal / t, e.fire / t, e.smoke / t, e.accident / t,
   e.medical_emergency / t, e.structural_damage / t, e.flood / t, e.explosion / t⟩

/-- Boost stage of EmergencyDetector._enhance_detection: fire and smoke
get the color-analysis contributions (weight 0.3) when use_color is on;
accident gets the motion contribution (weight 0.2) when the motion branch
ran (use_motion_analysis with a non-empty detection history). -/
def enhance_boost (base : EmergencyScores) (use_color motion_applied : Bool)
    (fire_color smoke_color motion : ℚ) : EmergencyScores :=
  let e1 := if use_color then
      { base with fire := min 1 (base.fire + fire_color * (3/10)),
                  smoke := min 1 (base.smoke + smoke_color * (3/10)) }
    else base
  if motion_applied then
    { e1 with accident := min 1 (e1.accident + motion * (2/10)) }
  else e1

/-- Model of EmergencyDetector._enhance_detection: boost, then divide every
entry by the total when the total is positive. -/
def _enhance_detection (base : EmergencyScores) (use_color motion_applied : Bool)
    (fire_color smoke_color motion : ℚ) : EmergencyScores :=
  let e2 := enhance_boost base use_color motion_applied fire_color smoke_color motion
  if 0 < sumScores e2 then divScores e2 (sumScores e2) else e2

/-- Every score of the map is non-negative. -/
def NonnegScores (e : EmergencyScores) : Prop :=
  0 ≤ e.normal ∧ 0 ≤ e.fire ∧ 0 ≤ e.smoke ∧ 0 ≤ e.accident ∧
  0 ≤ e.medical_emergency ∧ 0 ≤ e.structural_damage ∧ 0 ≤ e.flood ∧ 0 ≤ e.explosion

/-- Some score of the map is positive. -/
def SomeScorePos (e : EmergencyScores) : Prop :=
  0 < e.normal ∨ 0 < e.fire ∨ 0 < e.smoke ∨ 0 < e.accident ∨
  0 < e.medical_emergency ∨ 0 < e.structural_damage ∨ 0 < e.flood ∨ 0 < e.explosion

theorem sumScores_divScores (e : EmergencyScores) (t : ℚ) :
    sumScores (divScores e t) = sumScores e / t := by
  simp only [sumScores, divScores, div_add_div_same]

theorem min_one_nonneg {x : ℚ} (hx : 0 ≤ x) : 0 ≤ min 1 x :=
  le_min (by norm_num) hx

theorem min_one_pos {x : ℚ} (hx : 0 < x) : 0 < min 1 x :=
  lt_min (by norm_num) hx

/-- Sum of the clamped scores min 1 s over the eight classes. -/
def minOneSum (e : EmergencyScores) : ℚ :=
  min 1 e.normal + min 1 e.fire + min 1 e.smoke + min 1 e.accident +
    min 1 e.medical_emergency + min 1 e.structural_damage + min 1 e.flood +
    min 1 e.explosion

theorem minOneSum_pos (e : EmergencyScores) (hb : NonnegScores e)
    (hp : SomeScorePos e) : 0 < minOneSum e := by
  obtain ⟨h1, h2, h3, h4, h5, h6, h7, h8⟩ := hb
  unfold minOneSum
  rcases hp with h | h | h | h | h | h | h | h <;>
    linarith [min_one_pos h, min_one_nonneg h1, min_one_nonneg h2,
      min_one_nonneg h3, min_one_nonneg h4, min_one_nonneg h5,
      min_one_nonneg h6, min_one_nonneg h7, min_one_nonneg h8]

theorem minOneSum_le_sum_enhance_boost (base : EmergencyScores)
    (use_color motion_applied : Bool) (fire_color smoke_color motion : ℚ)
    (hf : 0 ≤ fire_color) (hs : 0 ≤ smoke_color) (hm : 0 ≤ motion) :
    minOneSum base ≤
      sumScores (enhance_boost base use_color motion_applied
        fire_color smoke_color motion) := by
  have hfire : min 1 base.fire ≤ min 1 (base.fire + fire_color * (3/10)) :=
    min_le_min le_rfl (by linarith)
  have hsmoke : min 1 base.smoke ≤ min 1 (base.smoke + smoke_color * (3/10)) :=
    min_le_min le_rfl (by linarith)
  have hacc : min 1 base.accident ≤ min 1 (base.accident + motion * (2/10)) :=
    min_le_min le_rfl (by linarith)
  cases use_color <;> cases motion_applied <;>
    simp only [enhance_boost, sumScores, minOneSum, if_true, if_false,
      Bool.false_eq_true, reduceIte] <;>
    linarith [min_le_right (1 : ℚ) base.normal, min_le_right (1 : ℚ) base.fire,
      min_le_right (1 : ℚ) base.smoke, min_le_right (1 : ℚ) base.accident,
      min_le_right (1 : ℚ) base.medical_emergency,
      min_le_right (1 : ℚ) base.structural_damage,
      min_le_right (1 : ℚ) base.flood, min_le_right (1 : ℚ) base.explosion]

/-- C6: for every base class-score map with non-negative scores at least
one of which is positive, and for all non-negative contributions of the
fire-color, smoke-color and motion heuristics (in the code each is of the
form min(1, r) with r ≥ 0), the map returned by _enhance_detection sums to
exactly 1 — in particular within 1e-6 — whatever the flags. -/
theorem C6_enhance_detection_normalizes (base : EmergencyScores)
    (use_color motion_applied : Bool) (fire_color smoke_color motion : ℚ)
    (hb : NonnegScores base) (hp : SomeScorePos base)
    (hf : 0 ≤ fire_color) (hs : 0 ≤ smoke_color) (hm : 0 ≤ motion) :
    sumScores (_enhance_detection base use_color motion_applied
      fire_color smoke_color motion) = 1 := by
  have hpos : 0 < sumScores (enhance_boost base use_color motion_applied
      fire_color smoke_color motion) :=
    lt_of_lt_of_le (minOneSum_pos base hb hp)
      (minOneSum_le_sum_enhance_boost base use_color motion_applied
        fire_color smoke_color motion hf hs hm)
  simp only [_enhance_detection, if_pos hpos]
  rw [sumScores_divScores]
  exact div_self (ne_of_gt hpos)

theorem C6_enhance_detection_normalizes_witness :
    NonnegScores ⟨(9:ℚ)/10, 1/20, 1/100, 1/100, 0, 1/100, 1/100, 1/100⟩ ∧
    SomeScorePos ⟨(9:ℚ)/10, 1/20, 1/100, 1/100, 0, 1/100, 1/100, 1/100⟩ ∧
    (0:ℚ) ≤ 1/2 ∧ (0:ℚ) ≤ 1/4 ∧ (0:ℚ) ≤ 1/5 ∧
    sumScores (_enhance_detection ⟨(9:ℚ)/10, 1/20, 1/100, 1/100, 0, 1/100, 1/100, 1/100⟩
      true true (1/2) (1/4) (1/5)) = 1 :=
  ⟨⟨by norm_num, by norm_num, by norm_num, by norm_num, by norm_num, by norm_num,
      by norm_num, by norm_num⟩,
   Or.inl (by norm_num), by norm_num, by norm_num, by norm_num,
   C6_enhance_detection_normalizes _ true true _ _ _
     ⟨by norm_num, by norm_num, by norm_num, by norm_num, by norm_num, by norm_num,
       by norm_num, by norm_num⟩
     (Or.inl (by norm_num)) (by norm_num) (by norm_num) (by norm_num)⟩

/-! ### Behavior Analyzer: temporal smoothing (behavior_analyzer.py)

BehaviorAnalyzer keeps prediction_history as a deque with maxlen 5.
_apply_temporal_smoothing appends the current per-class prediction, takes
weights [0.1, 0.2, 0.3, 0.4] truncated to the history length and
renormalized, and per class calls np.average over the history's scores
with weights[:len(scores)].  np.average raises ValueError when the score
and weight lists differ in length — which happens exactly when the history
holds 5 entries, since only 4 weights exist.  analyze_sequence catches the
exception and substitutes the all-normal fallback distribution.  A
prediction map is modelled as a function from class names; the per-class
loop is modelled by a structural recursion over the class list that stops
at the first exception, as the Python loop does. -/

def behavior_classes : List String :=
  ["normal", "panic", "running", "fighting", "falling",
   "unusual_gathering", "crowd_surge", "evacuation"]

/-- Fixed ascending weight vector of _apply_temporal_smoothing. -/
def smoothing_weights : List ℚ := [1/10, 2/10, 3/10, 4/10]

/-- Append to a bounded deque (collections.deque with maxlen), dropping
from the left when over capacity. -/
def deque_append {α : Type} (maxlen : ℕ) (d : List α) (x : α) : List α :=
  let r := d ++ [x]
  if maxlen < r.length then r.drop (r.length - maxlen) else r

/-- Model of np.average(xs, weights=ws): a ValueError when the lengths
differ, a ZeroDivisionError when the weights sum to zero, otherwise the
weighted sum divided by the weight total. -/
def np_average (xs ws : List ℚ) : Except String ℚ :=
  if xs.length = ws.length then
    if ws.sum = 0 then .error "ZeroDivisionError"
    else .ok ((List.zipWith (fun a b => a * b) xs ws).sum / ws.sum)
  else .error "ValueError"

/-- Per-class smoothing loop: for each class, average that class's scores
over the history with the truncated weights; the first exception aborts. -/
def smooth_classes (hist : List (String → ℚ)) (wsn : List ℚ) :
    List String → Except String (List (String × ℚ))
  | [] => .ok []
  | c :: cs =>
    let scores := hist.map (fun p => p c)
    match np_average scores (wsn.take scores.length) with
    | .error e => .error e
    | .ok v =>
      match smooth_classes hist wsn cs with
      | .error e => .error e
      | .ok rest => .ok ((c, v) :: rest)

/-- Model of BehaviorAnalyzer._apply_temporal_smoothing: returns the
history after the append together with the smoothing result. -/
def _apply_temporal_smoothing (history : List (String → ℚ))
    (current : String → ℚ) :
    List (String → ℚ) × Except String (List (String × ℚ)) :=
  let hist := deque_append 5 history current
  let ws := smoothing_weights.take hist.length
  let wsn := ws.map (fun w => w / ws.sum)
  (hist, smooth_classes hist wsn behavior_classes)

/-- The default all-normal distribution analyze_sequence returns when the
smoothing raises. -/
def fallback_normal : List (String × ℚ) :=
  behavior_classes.map (fun c => (c, if c = "normal" then 1 else 0))

/-- Smoothing-and-fallback tail of BehaviorAnalyzer.analyze_sequence: the
smoothed scores when the smoothing succeeds, the all-normal distribution
when it raises. -/
def analyze_sequence_smoothing (history : List (String → ℚ))
    (current : String → ℚ) : List (String → ℚ) × List (String × ℚ) :=
  let r := _apply_temporal_smoothing history current
  (r.1, match r.2 with | .ok m => m | .error _ => fallback_normal)

theorem length_deque_append {α : Type} (maxlen : ℕ) (d : List α) (x : α) :
    (deque_append maxlen d x).length = min (d.length + 1) maxlen := by
  unfold deque_append
  dsimp only
  split_ifs with h <;>
    simp only [List.length_drop, List.length_append, List.length_singleton] at * <;>
    omega

theorem np_average_length_ne (xs ws : List ℚ) (h : xs.length ≠ ws.length) :
    np_average xs ws = .error "ValueError" := by
  simp [np_average, h]

/-- C3 (refuted by the code): whenever the prediction history already holds
at least 4 entries — so that after the append the deque holds its maximum
of 5 — the per-class np.average receives 5 scores against the 4 available
weights and raises ValueError, and analyze_sequence therefore returns the
all-normal fallback distribution instead of the smoothed scores, for every
current prediction.  This contradicts the claim that smoothing is
well-defined for every history length from 1 through 5. -/
theorem C3_smoothing_fails_at_maxlen (history : List (String → ℚ))
    (current : String → ℚ) (h : 4 ≤ history.length) :
    (_apply_temporal_smoothing history current).2 = .error "ValueError" ∧
    (analyze_sequence_smoothing history current).2 = fallback_normal := by
  have hlen : (deque_append 5 history current).length = 5 := by
    rw [length_deque_append]; omega
  have hws : smoothing_weights.take (deque_append 5 history current).length =
      smoothing_weights := by
    rw [hlen]
    norm_num [smoothing_weights, List.take_succ_cons]
  have hfst : (_apply_temporal_smoothing history current).2 = .error "ValueError" := by
    simp only [_apply_temporal_smoothing, hws, behavior_classes, smooth_classes]
    rw [np_average_length_ne]
    simp [hlen, smoothing_weights]
  refine ⟨hfst, ?_⟩
  simp only [analyze_sequence_smoothing, hfst]

/-- Uniform prediction map used as the concrete failing input. -/
def uniformPred : String → ℚ := fun _ => 1/8

theorem C3_smoothing_fails_at_maxlen_witness :
    4 ≤ ([uniformPred, uniformPred, uniformPred, uniformPred] :
        List (String → ℚ)).length ∧
    ((_apply_temporal_smoothing [uniformPred, uniformPred, uniformPred, uniformPred]
        uniformPred).2 = .error "ValueError" ∧
     (analyze_sequence_smoothing [uniformPred, uniformPred, uniformPred, uniformPred]
        uniformPred).2 = fallback_normal) :=
  ⟨by simp,
   C3_smoothing_fails_at_maxlen [uniformPred, uniformPred, uniformPred, uniformPred]
     uniformPred (by simp)⟩

/-- Companion fact: one call below the maximum (history of 3, so 4 entries
after the append) the smoothing still succeeds, here on the uniform
prediction, yielding the uniform distribution back. -/
theorem smoothing_succeeds_below_maxlen :
    (_apply_temporal_smoothing [uniformPred, uniformPred, uniformPred]
      uniformPred).2 = .ok (behavior_classes.map (fun c => (c, 1/8))) := by
  norm_num [_apply_temporal_smoothing, deque_append, smooth_classes, np_average,
    behavior_classes, smoothing_weights, uniformPred]

/-! ### API Server: in-memory rings (api_server.py)

The backend's on_mqtt_message keeps three pieces of process state: the
grid-id-to-latest-status map, the alert ring (capped at 1000) and the
health ring (capped at 500).  Topic routing is by substring containment
tests checked in order (status, then alerts, then health); the status and
health branches read the third slash-separated topic segment, and an
IndexError there is swallowed by the surrounding except, leaving the state
unchanged.  Each ring appends and then pops the oldest entry when the
length exceeds the cap. -/


structure BusPayload where
  data : String
  received_at : Option ℚ := none
  grid_id : Option String := none
deriving DecidableEq, Repr

structure ApiState where
  grid_states : List (String × BusPayload)
  alert_history : List BusPayload
  health_history : List BusPayload
deriving DecidableEq, Repr

/-- The empty initial in-memory state of the API server. -/
def apiInit : ApiState := ⟨[], [], []⟩

/-- Python substring containment s2 in s1 (the topic-routing test). -/
def strContains (s pat : String) : Bool := 2 ≤ (s.splitOn pat).length

/-- Update or insert a key in an association list (dict assignment). -/
def assocSet {α : Type} (m : List (String × α)) (k : String) (v : α) : List (String × α) :=
  match m with
  | [] => [(k, v)]
  | (k', v') :: rest => if k' = k then (k, v) :: rest else (k', v') :: assocSet rest k v

/-- Append to a ring and pop the oldest entry when past the cap (the
append-then-pop of on_mqtt_message). -/
def pushRing {α : Type} (cap : ℕ) (ring : List α) (x : α) : List α :=
  let r := ring ++ [x]
  if cap < r.length then r.drop 1 else r

structure BusMsg where
  topic : String
  payload : BusPayload
  now : ℚ

/-- Model of api_server.on_mqtt_message for one bus message. -/
def on_mqtt_message (st : ApiState) (m : BusMsg) : ApiState :=
  if strContains m.topic "status" then
    match (m.topic.splitOn "/").get? 2 with
    | some gid => { st with grid_states := assocSet st.grid_states gid m.payload }
    | none => st
  else if strContains m.topic "alerts" then
    { st with alert_history :=
        pushRing 1000 st.alert_history ({ m.payload with received_at := some m.now }) }
  else if strContains m.topic "health" then
    match (m.topic.splitOn "/").get? 2 with
    | some gid =>
        { st with health_history :=
            pushRing 500 st.health_history ({ m.payload with grid_id := some gid }) }
    | none => st
  else st

/-- Process a sequence of bus messages in order. -/
def run_messages (st : ApiState) : List BusMsg → ApiState
  | [] => st
  | m :: ms => run_messages (on_mqtt_message st m) ms

/-- The stamped alert payloads a message sequence delivers to the alert
ring, in arrival order. -/
def alerts_of (ms : List BusMsg) : List BusPayload :=
  ms.filterMap (fun m =>
    if !(strContains m.topic "status") && strContains m.topic "alerts" then
      some ({ m.payload with received_at := some m.now })
    else none)

/-- The tagged health payloads a message sequence delivers to the health
ring, in arrival order. -/
def healths_of (ms : List BusMsg) : List BusPayload :=
  ms.filterMap (fun m =>
    if !(strContains m.topic "status") && !(strContains m.topic "alerts") &&
        strContains m.topic "health" then
      match (m.topic.splitOn "/").get? 2 with
      | some gid => some ({ m.payload with grid_id := some gid })
      | none => none
    else none)

/-- The n most recent elements of a list, in order. -/
def lastN {α : Type} (n : ℕ) (l : List α) : List α := l.drop (l.length - n)

theorem length_pushRing {α : Type} (cap : ℕ) (ring : List α) (x : α)
    (h : ring.length ≤ cap) : (pushRing cap ring x).length ≤ cap := by
  unfold pushRing
  dsimp only
  split_ifs with hc <;>
    simp only [List.length_drop, List.length_append, List.length_singleton] at * <;> omega

theorem length_lastN {α : Type} (n : ℕ) (l : List α) :
    (lastN n l).length = min l.length n := by
  simp only [lastN, List.length_drop]
  omega

theorem pushRing_lastN {α : Type} (cap : ℕ) (l : List α) (x : α) :
    pushRing cap (lastN cap l) x = lastN cap (l ++ [x]) := by
  have hlast : lastN cap l ++ [x] = (l ++ [x]).drop (l.length - cap) := by
    rw [lastN, List.drop_append_of_le_length (by omega)]
  unfold pushRing
  dsimp only
  rw [hlast]
  by_cases hc : cap < l.length + 1
  · rw [if_pos]
    · rw [List.drop_drop, lastN]
      congr 1
      simp only [List.length_append, List.length_singleton]
      omega
    · simp only [List.length_drop, List.length_append, List.length_singleton]
      omega
  · rw [if_neg]
    · rw [lastN]
      congr 1
      simp only [List.length_append, List.length_singleton]
      omega
    · simp only [List.length_drop, List.length_append, List.length_singleton]
      omega

theorem foldl_pushRing_nil {α : Type} (cap : ℕ) (l : List α) :
    l.foldl (pushRing cap) [] = lastN cap l := by
  induction l using List.reverseRecOn with
  | nil => simp [lastN]
  | append_singleton l x ih =>
    rw [List.foldl_append, List.foldl_cons, List.foldl_nil, ih, pushRing_lastN]

theorem run_messages_alert_history (st : ApiState) (ms : List BusMsg) :
    (run_messages st ms).alert_history =
      (alerts_of ms).foldl (pushRing 1000) st.alert_history := by
  induction ms generalizing st with
  | nil => simp [run_messages, alerts_of]
  | cons m ms ih =>
    rw [run_messages, ih]
    unfold alerts_of
    rw [List.filterMap_cons]
    by_cases h1 : strContains m.topic "status"
    · have : (on_mqtt_message st m).alert_history = st.alert_history := by
        unfold on_mqtt_message
        rw [if_pos h1]
        cases (m.topic.splitOn "/").get? 2 <;> rfl
      simp [h1, this, alerts_of]
    · by_cases h2 : strContains m.topic "alerts"
      · have : (on_mqtt_message st m).alert_history =
            pushRing 1000 st.alert_history ({ m.payload with received_at := some m.now }) := by
          unfold on_mqtt_message
          rw [if_neg (by simp [h1]), if_pos h2]
        simp [h1, h2, this, alerts_of]
      · have : (on_mqtt_message st m).alert_history = st.alert_history := by
          unfold on_mqtt_message
          rw [if_neg (by simp [h1]), if_neg (by simp [h2])]
          by_cases h3 : strContains m.topic "health"
          · rw [if_pos h3]
            cases (m.topic.splitOn "/").get? 2 <;> rfl
          · rw [if_neg (by simp [h3])]
        simp [h1, h2, this, alerts_of]

theorem run_messages_health_history (st : ApiState) (ms : List BusMsg) :
    (run_messages st ms).health_history =
      (healths_of ms).foldl (pushRing 500) st.health_history := by
  induction ms generalizing st with
  | nil => simp [run_messages, healths_of]
  | cons m ms ih =>
    rw [run_messages, ih]
    unfold healths_of
    rw [List.filterMap_cons]
    by_cases h1 : strContains m.topic "status"
    · have : (on_mqtt_message st m).health_history = st.health_history := by
        unfold on_mqtt_message
        rw [if_pos h1]
        cases (m.topic.splitOn "/").get? 2 <;> rfl
      simp [h1, this, healths_of]
    · by_cases h2 : strContains m.topic "alerts"
      · have : (on_mqtt_message st m).health_history = st.health_history := by
          unfold on_mqtt_message
          rw [if_neg (by simp [h1]), if_pos h2]
        simp [h1, h2, this, healths_of]
      · by_cases h3 : strContains m.topic "health"
        · cases hget : (m.topic.splitOn "/").get? 2 with
          | none =>
            have : (on_mqtt_message st m).health_history = st.health_history := by
              unfold on_mqtt_message
              rw [if_neg (by simp [h1]), if_neg (by simp [h2]), if_pos h3, hget]
            simp [h1, h2, h3, this, hget, healths_of]
          | some gid =>
            have : (on_mqtt_message st m).health_history =
                pushRing 500 st.health_history ({ m.payload with grid_id := some gid }) := by
              unfold on_mqtt_message
              rw [if_neg (by simp [h1]), if_neg (by simp [h2]), if_pos h3, hget]
            simp [h1, h2, h3, this, hget, healths_of]
        · have : (on_mqtt_message st m).health_history = st.health_history := by
            unfold on_mqtt_message
            rw [if_neg (by simp [h1]), if_neg (by simp [h2]), if_neg (by simp [h3])]
          simp [h1, h2, h3, this, healths_of]

/-- C8: every message-handling step preserves the ring bounds (1000 alerts,
500 health samples), and from the empty initial state any message sequence
leaves the alert ring holding exactly the most recent 1000 delivered alert
payloads in arrival order and the health ring the most recent 500 health
payloads — so 1500 delivered alerts leave exactly the last 1000, and 600
health samples the last 500. -/
theorem C8_bounded_rings :
    (∀ (st : ApiState) (m : BusMsg),
      (st.alert_history.length ≤ 1000 →
        (on_mqtt_message st m).alert_history.length ≤ 1000) ∧
      (st.health_history.length ≤ 500 →
        (on_mqtt_message st m).health_history.length ≤ 500)) ∧
    (∀ ms : List BusMsg,
      (run_messages apiInit ms).alert_history = lastN 1000 (alerts_of ms) ∧
      (run_messages apiInit ms).health_history = lastN 500 (healths_of ms)) := by
  constructor
  · intro st m
    constructor
    · intro h
      unfold on_mqtt_message
      split_ifs <;> (cases (m.topic.splitOn "/").get? 2 <;> first
        | (simpa using length_pushRing 1000 st.alert_history _ h)
        | simpa using h)
    · intro h
      unfold on_mqtt_message
      split_ifs <;> (cases (m.topic.splitOn "/").get? 2 <;> first
        | (simpa using length_pushRing 500 st.health_history _ h)
        | simpa using h)
  · intro ms
    refine ⟨?_, ?_⟩
    · rw [run_messages_alert_history]
      simp only [apiInit]
      rw [foldl_pushRing_nil]
    · rw [run_messages_health_history]
      simp only [apiInit]
      rw [foldl_pushRing_nil]


theorem C8_bounded_rings_witness :
    apiInit.alert_history.length ≤ 1000 ∧
    apiInit.health_history.length ≤ 500 ∧
    (on_mqtt_message apiInit
      ⟨"dhsiled/grids/G01/alerts", ⟨"a1", none, none⟩, 0⟩).alert_history.length ≤ 1000 ∧
    (on_mqtt_message apiInit
      ⟨"dhsiled/grids/G01/alerts", ⟨"a1", none, none⟩, 0⟩).health_history.length ≤ 500 :=
  ⟨by simp [apiInit], by simp [apiInit],
   (C8_bounded_rings.1 apiInit ⟨"dhsiled/grids/G01/alerts", ⟨"a1", none, none⟩, 0⟩).1
     (by simp [apiInit]),
   (C8_bounded_rings.1 apiInit ⟨"dhsiled/grids/G01/alerts", ⟨"a1", none, none⟩, 0⟩).2
     (by simp [apiInit])⟩

/-! ### Edge Processor: alert generation and cooldowns (edge_processor.py)

generate_alerts runs three sections in order — crowd-density, behavior, and
emergency — each guarded by is_alert_in_cooldown on a per-alert string key
and followed by set_alert_cooldown(key, secs), with now + secs stored as
the cooldown deadline (is_alert_in_cooldown holds while time.time() <
deadline, so the window is the half-open interval up to but excluding
now + secs).  The Python keys are the strings density_<status>,
behavior_<name> and emergency_<type>; since the three prefixes are
distinct, the key space is modelled by the inductive AlertKey, whose map
to the Python strings is injective. -/

/-- Alert-cooldown key space: density_<status>, behavior_<name>,
emergency_<type>. -/
inductive AlertKey where
  | density (status : String)
  | behavior (name : String)
  | emergency (etype : String)
deriving DecidableEq, Repr

/-- The alert_cooldown dict: key to cooldown deadline (a Unix time). -/
abbrev CooldownMap := List (AlertKey × ℚ)

/-- Dict lookup in the cooldown map. -/
def lookupKey (m : CooldownMap) (k : AlertKey) : Option ℚ :=
  match m with
  | [] => none
  | (k', v) :: rest => if k' = k then some v else lookupKey rest k

/-- Dict assignment in the cooldown map. -/
def setKey (m : CooldownMap) (k : AlertKey) (v : ℚ) : CooldownMap :=
  match m with
  | [] => [(k, v)]
  | (k', v') :: rest => if k' = k then (k, v) :: rest else (k', v') :: setKey rest k v

theorem lookup_setKey_self (m : CooldownMap) (k : AlertKey) (v : ℚ) :
    lookupKey (setKey m k v) k = some v := by
  induction m with
  | nil => simp [setKey, lookupKey]
  | cons kv rest ih =>
    obtain ⟨k', v'⟩ := kv
    by_cases h : k' = k <;> simp [setKey, lookupKey, h, ih]

theorem lookup_setKey_ne (m : CooldownMap) (k k' : AlertKey) (v : ℚ) (h : k' ≠ k) :
    lookupKey (setKey m k' v) k = lookupKey m k := by
  induction m with
  | nil => simp [setKey, lookupKey, h]
  | cons kv rest ih =>
    obtain ⟨k'', v''⟩ := kv
    by_cases h2 : k'' = k' <;> by_cases h3 : k'' = k <;>
      simp_all [setKey, lookupKey]

/-- Model of EdgeProcessor.is_alert_in_cooldown: true while the current
time is strictly before the stored deadline. -/
def is_alert_in_cooldown (cd : CooldownMap) (now : ℚ) (k : AlertKey) : Bool :=
  match lookupKey cd k with
  | none => false
  | some u => decide (now < u)

/-- Model of EdgeProcessor.set_alert_cooldown: deadline now + secs. -/
def set_alert_cooldown (cd : CooldownMap) (now : ℚ) (k : AlertKey)
    (secs : ℚ) : CooldownMap :=
  setKey cd k (now + secs)

/-- The fields of a behavior alert that generate_alerts inspects. -/
structure BehaviorAlert where
  behavior : String
  severity : String
  confidence : ℚ

/-- The fields of the emergency status that generate_alerts inspects. -/
structure EmergencyStatus where
  status : String
  etype : String
  confidence : ℚ

/-- An alert produced by generate_alerts: its cooldown key, type and
severity. -/
structure FiredAlert where
  key : AlertKey
  atype : String
  severity : String
deriving DecidableEq, Repr

/-- Crowd-density section of generate_alerts: fires when the threshold
status is high or critical and the key is not cooling down; 60-second
cooldown. -/
def density_branch (thr : DensityThresholds) (now : ℚ) (people_count : ℕ)
    (cd : CooldownMap) : List FiredAlert × CooldownMap :=
  let status := get_threshold_status thr people_count
  if status = "high" ∨ status = "critical" then
    if is_alert_in_cooldown cd now (.density status) then ([], cd)
    else ([⟨.density status, "crowd_density", status⟩],
      set_alert_cooldown cd now (.density status) 60)
  else ([], cd)

/-- One iteration of the behavior-alert loop of generate_alerts: fires for
high/critical severities, 30-second cooldown. -/
def behavior_step (now : ℚ) (acc : List FiredAlert × CooldownMap)
    (ba : BehaviorAlert) : List FiredAlert × CooldownMap :=
  if ba.severity = "high" ∨ ba.severity = "critical" then
    if is_alert_in_cooldown acc.2 now (.behavior ba.behavior) then acc
    else (acc.1 ++ [⟨.behavior ba.behavior, "behavior_anomaly", ba.severity⟩],
      set_alert_cooldown acc.2 now (.behavior ba.behavior) 30)
  else acc

/-- Emergency section of generate_alerts: fires for warning/emergency
status, 10-second cooldown, severity critical for emergency else high. -/
def emergency_branch (now : ℚ) (emerg : EmergencyStatus)
    (acc : List FiredAlert × CooldownMap) : List FiredAlert × CooldownMap :=
  if emerg.status = "warning" ∨ emerg.status = "emergency" then
    if is_alert_in_cooldown acc.2 now (.emergency emerg.etype) then acc
    else (acc.1 ++ [⟨.emergency emerg.etype, "emergency",
        if emerg.status = "emergency" then "critical" else "high"⟩],
      set_alert_cooldown acc.2 now (.emergency emerg.etype) 10)
  else acc

/-- Model of EdgeProcessor.generate_alerts: the three sections in program
order, threading the cooldown map. -/
def generate_alerts (thr : DensityThresholds) (now : ℚ) (people_count : ℕ)
    (behavior_alerts : List BehaviorAlert) (emerg : EmergencyStatus)
    (cd : CooldownMap) : List FiredAlert × CooldownMap :=
  emergency_branch now emerg
    (behavior_alerts.foldl (behavior_step now) (density_branch thr now people_count cd))

theorem density_branch_preserve (thr : DensityThresholds) (now : ℚ)
    (people_count : ℕ) (cd : CooldownMap) (s : String) (u : ℚ)
    (hcd : lookupKey cd (.density s) = some u) (hnow : now < u) :
    (∀ f ∈ (density_branch thr now people_count cd).1, f.key ≠ AlertKey.density s) ∧
    lookupKey (density_branch thr now people_count cd).2 (.density s) = some u := by
  unfold density_branch
  dsimp only
  by_cases hs : get_threshold_status thr people_count = "high" ∨
      get_threshold_status thr people_count = "critical"
  · rw [if_pos hs]
    by_cases heq : get_threshold_status thr people_count = s
    · have hcool : is_alert_in_cooldown cd now
          (.density (get_threshold_status thr people_count)) = true := by
        rw [heq]
        simp [is_alert_in_cooldown, hcd, hnow]
      rw [if_pos hcool]
      exact ⟨by simp, hcd⟩
    · by_cases hcool : is_alert_in_cooldown cd now
          (.density (get_threshold_status thr people_count)) = true
      · rw [if_pos hcool]
        exact ⟨by simp, hcd⟩
      · rw [if_neg hcool]
        refine ⟨?_, ?_⟩
        · intro f hf
          simp only [List.mem_singleton] at hf
          subst hf
          simp [heq]
        · rw [set_alert_cooldown, lookup_setKey_ne _ _ _ _ (by simp [heq])]
          exact hcd
  · rw [if_neg hs]
    exact ⟨by simp, hcd⟩

theorem behavior_fold_preserve (now : ℚ) (l : List BehaviorAlert)
    (acc : List FiredAlert × CooldownMap) (s : String) :
    lookupKey (l.foldl (behavior_step now) acc).2 (.density s) =
      lookupKey acc.2 (.density s) := by
  induction l generalizing acc with
  | nil => rfl
  | cons ba rest ih =>
    rw [List.foldl_cons, ih]
    unfold behavior_step
    split_ifs <;> simp [set_alert_cooldown, lookup_setKey_ne]

theorem behavior_fold_mem_mono (now : ℚ) (l : List BehaviorAlert)
    (acc : List FiredAlert × CooldownMap) (f : FiredAlert) (hf : f ∈ acc.1) :
    f ∈ (l.foldl (behavior_step now) acc).1 := by
  induction l generalizing acc with
  | nil => exact hf
  | cons ba rest ih =>
    rw [List.foldl_cons]
    apply ih
    unfold behavior_step
    split_ifs <;> simp [hf]

theorem behavior_fold_mem_new (now : ℚ) (l : List BehaviorAlert)
    (acc : List FiredAlert × CooldownMap) (f : FiredAlert)
    (hf : f ∈ (l.foldl (behavior_step now) acc).1) :
    f ∈ acc.1 ∨ ∃ b, f.key = AlertKey.behavior b := by
  induction l generalizing acc with
  | nil => exact Or.inl hf
  | cons ba rest ih =>
    rw [List.foldl_cons] at hf
    rcases ih _ hf with h | h
    · unfold behavior_step at h
      split_ifs at h with h1 h2
      · exact Or.inl h
      · rcases List.mem_append.mp h with h | h
        · exact Or.inl h
        · simp only [List.mem_singleton] at h
          subst h
          exact Or.inr ⟨ba.behavior, rfl⟩
      · exact Or.inl h
    · exact Or.inr h

theorem emergency_branch_preserve (now : ℚ) (emerg : EmergencyStatus)
    (acc : List FiredAlert × CooldownMap) (s : String) :
    lookupKey (emergency_branch now emerg acc).2 (.density s) =
      lookupKey acc.2 (.density s) := by
  unfold emergency_branch
  split_ifs <;> simp [set_alert_cooldown, lookup_setKey_ne]

theorem emergency_branch_mem_mono (now : ℚ) (emerg : EmergencyStatus)
    (acc : List FiredAlert × CooldownMap) (f : FiredAlert) (hf : f ∈ acc.1) :
    f ∈ (emergency_branch now emerg acc).1 := by
  unfold emergency_branch
  split_ifs <;> simp [hf]

theorem emergency_branch_mem_new (now : ℚ) (emerg : EmergencyStatus)
    (acc : List FiredAlert × CooldownMap) (f : FiredAlert)
    (hf : f ∈ (emergency_branch now emerg acc).1) :
    f ∈ acc.1 ∨ ∃ e, f.key = AlertKey.emergency e := by
  unfold emergency_branch at hf
  split_ifs at hf
  · exact Or.inl hf
  · rcases List.mem_append.mp hf with h | h
    · exact Or.inl h
    · simp only [List.mem_singleton] at h
      subst h
      exact Or.inr ⟨emerg.etype, rfl⟩
  · rcases List.mem_append.mp hf with h | h
    · exact Or.inl h
    · simp only [List.mem_singleton] at h
      subst h
      exact Or.inr ⟨emerg.etype, rfl⟩
  · exact Or.inl hf

theorem cooldown_false_of_le (cd : CooldownMap) (now : ℚ) (k : AlertKey) (u : ℚ)
    (hcd : lookupKey cd k = some u) (h : u ≤ now) :
    is_alert_in_cooldown cd now k = false := by
  simp [is_alert_in_cooldown, hcd, not_lt.mpr h]

theorem cooldown_false_of_none (cd : CooldownMap) (now : ℚ) (k : AlertKey)
    (hcd : lookupKey cd k = none) :
    is_alert_in_cooldown cd now k = false := by
  simp [is_alert_in_cooldown, hcd]

theorem density_branch_fired (thr : DensityThresholds) (now : ℚ)
    (people_count : ℕ) (cd : CooldownMap) (f : FiredAlert)
    (hf : f ∈ (density_branch thr now people_count cd).1) :
    f = ⟨.density (get_threshold_status thr people_count), "crowd_density",
          get_threshold_status thr people_count⟩ ∧
    (density_branch thr now people_count cd).2 =
      set_alert_cooldown cd now (.density (get_threshold_status thr people_count)) 60 ∧
    (get_threshold_status thr people_count = "high" ∨
     get_threshold_status thr people_count = "critical") := by
  unfold density_branch at hf ⊢
  dsimp only at hf ⊢
  split_ifs at hf ⊢ with h1 h2
  · simp at hf
  · exact ⟨by simpa using hf, rfl, h1⟩
  · simp at hf

theorem generate_alerts_preserve (thr : DensityThresholds) (now : ℚ)
    (people_count : ℕ) (bas : List BehaviorAlert) (emerg : EmergencyStatus)
    (cd : CooldownMap) (s : String) (u : ℚ)
    (hcd : lookupKey cd (.density s) = some u) (hnow : now < u) :
    (∀ f ∈ (generate_alerts thr now people_count bas emerg cd).1,
      f.key ≠ AlertKey.density s) ∧
    lookupKey (generate_alerts thr now people_count bas emerg cd).2
      (.density s) = some u := by
  obtain ⟨hdb1, hdb2⟩ := density_branch_preserve thr now people_count cd s u hcd hnow
  constructor
  · intro f hf
    unfold generate_alerts at hf
    rcases emergency_branch_mem_new _ _ _ _ hf with h | ⟨e, he⟩
    · rcases behavior_fold_mem_new _ _ _ _ h with h2 | ⟨b, hb⟩
      · exact hdb1 f h2
      · rw [hb]; simp
    · rw [he]; simp
  · unfold generate_alerts
    rw [emergency_branch_preserve, behavior_fold_preserve]
    exact hdb2

theorem generate_alerts_fires (thr : DensityThresholds) (now : ℚ)
    (people_count : ℕ) (bas : List BehaviorAlert) (emerg : EmergencyStatus)
    (cd : CooldownMap) (s : String)
    (hs : get_threshold_status thr people_count = s)
    (hhs : s = "high" ∨ s = "critical")
    (hcool : is_alert_in_cooldown cd now (.density s) = false) :
    (⟨AlertKey.density s, "crowd_density", s⟩ : FiredAlert) ∈
      (generate_alerts thr now people_count bas emerg cd).1 ∧
    lookupKey (generate_alerts thr now people_count bas emerg cd).2
      (.density s) = some (now + 60) := by
  have hdb : density_branch thr now people_count cd =
      ([⟨AlertKey.density s, "crowd_density", s⟩],
        set_alert_cooldown cd now (.density s) 60) := by
    unfold density_branch
    dsimp only
    rw [hs, if_pos hhs, if_neg (by simp [hcool])]
  constructor
  · unfold generate_alerts
    apply emergency_branch_mem_mono
    apply behavior_fold_mem_mono
    rw [hdb]
    simp
  · unfold generate_alerts
    rw [emergency_branch_preserve, behavior_fold_preserve, hdb]
    exact lookup_setKey_self cd (.density s) (now + 60)

theorem generate_alerts_fired_lookup (thr : DensityThresholds) (now : ℚ)
    (people_count : ℕ) (bas : List BehaviorAlert) (emerg : EmergencyStatus)
    (cd : CooldownMap) (s : String) (f : FiredAlert)
    (hf : f ∈ (generate_alerts thr now people_count bas emerg cd).1)
    (hk : f.key = AlertKey.density s) :
    lookupKey (generate_alerts thr now people_count bas emerg cd).2
      (.density s) = some (now + 60) ∧
    (s = "high" ∨ s = "critical") := by
  unfold generate_alerts at hf
  rcases emergency_branch_mem_new _ _ _ _ hf with h | ⟨e, he⟩
  · rcases behavior_fold_mem_new _ _ _ _ h with h2 | ⟨b, hb⟩
    · obtain ⟨hfeq, hcd2, hcond⟩ := density_branch_fired thr now people_count cd f h2
      have hss : get_threshold_status thr people_count = s := by
        have := hk
        rw [hfeq] at this
        simpa using this
      rw [hss] at hcd2 hcond
      refine ⟨?_, hcond⟩
      unfold generate_alerts
      rw [emergency_branch_preserve, behavior_fold_preserve, hcd2]
      exact lookup_setKey_self cd (.density s) (now + 60)
    · rw [hk] at hb
      simp at hb
  · rw [hk] at he
    simp at he

/-- The inputs of one generate_alerts evaluation: its clock reading and
the analysis results. -/
structure EvalInput where
  now : ℚ
  people_count : ℕ
  behavior_alerts : List BehaviorAlert
  emergency_status : EmergencyStatus

/-- One generate_alerts evaluation on an EvalInput. -/
def eval_step (thr : DensityThresholds) (cd : CooldownMap) (e : EvalInput) :
    List FiredAlert × CooldownMap :=
  generate_alerts thr e.now e.people_count e.behavior_alerts e.emergency_status cd

/-- The cooldown map after a sequence of evaluations. -/
def run_evals (thr : DensityThresholds) (cd : CooldownMap) :
    List EvalInput → CooldownMap
  | [] => cd
  | e :: es => run_evals thr (eval_step thr cd e).2 es

/-- Some evaluation along the trace fires an alert with the given key. -/
def trace_fires (thr : DensityThresholds) (k : AlertKey) :
    CooldownMap → List EvalInput → Prop
  | _, [] => False
  | cd, e :: es => (∃ f ∈ (eval_step thr cd e).1, f.key = k) ∨
      trace_fires thr k (eval_step thr cd e).2 es

theorem no_fire_in_window (thr : DensityThresholds) (s : String) (u : ℚ)
    (trace : List EvalInput) :
    ∀ cd : CooldownMap, lookupKey cd (.density s) = some u →
    (∀ e ∈ trace, e.now < u) →
    ¬ trace_fires thr (.density s) cd trace ∧
    lookupKey (run_evals thr cd trace) (.density s) = some u := by
  induction trace with
  | nil =>
    intro cd hcd _
    exact ⟨fun h => h, hcd⟩
  | cons e es ih =>
    intro cd hcd htimes
    obtain ⟨hnof, hpres⟩ := generate_alerts_preserve thr e.now e.people_count
      e.behavior_alerts e.emergency_status cd s u hcd (htimes e (by simp))
    obtain ⟨ihn, ihl⟩ := ih _ hpres (fun x hx => htimes x (by simp [hx]))
    refine ⟨?_, ihl⟩
    intro hfi
    rcases hfi with ⟨f, hf, hkey⟩ | hrest
    · exact hnof f hf hkey
    · exact ihn hrest

/-- C5: once a crowd-density alert for status s fires at time t (from any
prior state), no generate_alerts evaluation whose clock reads strictly less
than t + 60 produces another alert with the density_s key, whatever its
inputs and however many evaluations occur; and an evaluation at or after
t + 60 whose threshold status is again s produces a new density_s alert. -/
theorem C5_density_alert_cooldown (thr : DensityThresholds) (s : String) (t : ℚ)
    (p0 : ℕ) (b0 : List BehaviorAlert) (e0 : EmergencyStatus) (cdPre : CooldownMap)
    (f0 : FiredAlert)
    (hfired : f0 ∈ (generate_alerts thr t p0 b0 e0 cdPre).1)
    (hkey : f0.key = AlertKey.density s)
    (trace : List EvalInput) (htrace : ∀ e ∈ trace, e.now < t + 60)
    (efin : EvalInput) (hfin : t + 60 ≤ efin.now)
    (hstat : get_threshold_status thr efin.people_count = s) :
    ¬ trace_fires thr (.density s) (generate_alerts thr t p0 b0 e0 cdPre).2 trace ∧
    (⟨AlertKey.density s, "crowd_density", s⟩ : FiredAlert) ∈
      (eval_step thr
        (run_evals thr (generate_alerts thr t p0 b0 e0 cdPre).2 trace) efin).1 := by
  obtain ⟨hlook, hcond⟩ := generate_alerts_fired_lookup thr t p0 b0 e0 cdPre s f0
    hfired hkey
  obtain ⟨hnof, hpres⟩ := no_fire_in_window thr s (t + 60) trace _ hlook htrace
  refine ⟨hnof, ?_⟩
  have hcool : is_alert_in_cooldown
      (run_evals thr (generate_alerts thr t p0 b0 e0 cdPre).2 trace)
      efin.now (.density s) = false :=
    cooldown_false_of_le _ _ _ _ hpres hfin
  exact (generate_alerts_fires thr efin.now efin.people_count
    efin.behavior_alerts efin.emergency_status _ s hstat hcond hcool).1

/-- An all-clear emergency status. -/
def clearStatus : EmergencyStatus := ⟨"clear", "", 0⟩

theorem C5_density_alert_cooldown_witness :
    ((⟨AlertKey.density "critical", "crowd_density", "critical"⟩ : FiredAlert) ∈
        (generate_alerts defaultDensityThresholds 0 151 [] clearStatus []).1) ∧
    (∀ e ∈ ([⟨30, 151, [], clearStatus⟩] : List EvalInput), e.now < 0 + 60) ∧
    ((0 : ℚ) + 60 ≤ (60 : ℚ)) ∧
    get_threshold_status defaultDensityThresholds 151 = "critical" ∧
    (¬ trace_fires defaultDensityThresholds (.density "critical")
        (generate_alerts defaultDensityThresholds 0 151 [] clearStatus []).2
        [⟨30, 151, [], clearStatus⟩] ∧
     (⟨AlertKey.density "critical", "crowd_density", "critical"⟩ : FiredAlert) ∈
       (eval_step defaultDensityThresholds
         (run_evals defaultDensityThresholds (generate_alerts defaultDensityThresholds 0 151 [] clearStatus []).2
           [⟨30, 151, [], clearStatus⟩]) ⟨60, 151, [], clearStatus⟩).1) :=
  ⟨by simp [generate_alerts, density_branch, get_threshold_status, defaultDensityThresholds,
      is_alert_in_cooldown, lookupKey, emergency_branch, clearStatus,
      set_alert_cooldown, setKey],
   by intro e he; simp at he; subst he; norm_num,
   by norm_num,
   by norm_num [get_threshold_status, defaultDensityThresholds],
   C5_density_alert_cooldown defaultDensityThresholds "critical" 0 151 [] clearStatus []
     ⟨AlertKey.density "critical", "crowd_density", "critical"⟩
     (by simp [generate_alerts, density_branch, get_threshold_status, defaultDensityThresholds,
        is_alert_in_cooldown, lookupKey, emergency_branch, clearStatus,
        set_alert_cooldown, setKey])
     rfl
     [⟨30, 151, [], clearStatus⟩]
     (by intro e he; simp at he; subst he; norm_num)
     ⟨60, 151, [], clearStatus⟩
     (by norm_num)
     (by norm_num [get_threshold_status, defaultDensityThresholds])⟩

/-! ### Configuration: dotted-path get and set (utils/config.py)

Config.get splits the key on dots and walks nested dicts, returning the
caller's default on KeyError or TypeError; Config.set walks keys[:-1],
creating an empty dict for each missing intermediate, and assigns at the
final key.  When an intermediate entry exists but is not a dict, Python
raises TypeError (an int is not a container; a str either rejects item
assignment or rejects the string index), which set does not catch.  The
value space of a YAML-equivalent document is modelled by CVal, and the
raising set by Except; the model returns the updated document only on
success. -/

/-- A YAML-equivalent configuration value. -/
inductive CVal where
  | str (s : String)
  | int (n : ℤ)
  | rat (q : ℚ)
  | bool (b : Bool)
  | null
  | dict (entries : List (String × CVal))

/-- Dict lookup. -/
def dictFind : List (String × CVal) → String → Option CVal
  | [], _ => none
  | (k, v) :: rest, key => if k = key then some v else dictFind rest key

/-- Dict assignment (update or insert). -/
def dictSet : List (String × CVal) → String → CVal → List (String × CVal)
  | [], key, v => [(key, v)]
  | (k, w) :: rest, key, v =>
    if k = key then (key, v) :: rest else (k, w) :: dictSet rest key v

/-- Walk a parsed key path; none models the KeyError/TypeError that
Config.get catches. -/
def getPath : CVal → List String → Option CVal
  | v, [] => some v
  | .dict es, k :: ks =>
    match dictFind es k with
    | some v => getPath v ks
    | none => none
  | _, _ :: _ => none

/-- Split a character list on dots, keeping empty segments. -/
def splitCharAux : List Char → List Char → List (List Char)
  | [], acc => [acc.reverse]
  | c :: cs, acc =>
    if c = '.' then acc.reverse :: splitCharAux cs []
    else splitCharAux cs (c :: acc)

/-- Python key.split('.'). -/
def pySplitDot (s : String) : List String :=
  (splitCharAux s.data []).map (fun l => String.mk l)

/-- Model of Config.get. -/
def config_get (doc : CVal) (key : String) (dflt : CVal) : CVal :=
  match getPath doc (pySplitDot key) with
  | some v => v
  | none => dflt

/-- Walk-and-assign of Config.set over a parsed key path: missing
intermediates become empty dicts, an existing non-dict intermediate (or a
non-dict final container) raises TypeError. -/
def setPath : CVal → List String → CVal → Except String CVal
  | .dict es, [k], v => .ok (.dict (dictSet es k v))
  | .dict es, k :: k2 :: ks, v =>
    match setPath (match dictFind es k with | some c => c | none => .dict []) (k2 :: ks) v with
    | .ok c2 => .ok (.dict (dictSet es k c2))
    | .error e => .error e
  | _, _, _ => .error "TypeError"

/-- Model of Config.set. -/
def config_set (doc : CVal) (key : String) (v : CVal) : Except String CVal :=
  setPath doc (pySplitDot key) v

theorem dictFind_dictSet_self (es : List (String × CVal)) (k : String) (v : CVal) :
    dictFind (dictSet es k v) k = some v := by
  induction es with
  | nil => simp [dictSet, dictFind]
  | cons kv rest ih =>
    obtain ⟨k', v'⟩ := kv
    by_cases h : k' = k <;> simp [dictSet, dictFind, h, ih]

theorem setPath_getPath (ks : List String) (doc : CVal) (v doc2 : CVal)
    (h : setPath doc ks v = .ok doc2) : getPath doc2 ks = some v := by
  induction ks generalizing doc doc2 with
  | nil =>
    cases doc <;> simp [setPath] at h
  | cons k ks ih =>
    cases ks with
    | nil =>
      cases doc <;> simp [setPath] at h
      subst h
      simp [getPath, dictFind_dictSet_self]
    | cons k2 rest =>
      cases doc <;> simp [setPath] at h
      case dict es =>
        cases hrec : setPath
            (match dictFind es k with | some c => c | none => .dict []) (k2 :: rest) v with
        | ok c2 =>
          rw [hrec] at h
          simp at h
          subst h
          simp [getPath, dictFind_dictSet_self]
          exact ih _ _ hrec
        | error e =>
          rw [hrec] at h
          simp at h

/-- The document returned by Config._get_default_config. -/
def _get_default_config : CVal := .dict
  [("grid", .dict
     [("id", .str "G01"), ("zone_type", .str "stand"), ("area_sqm", .int 750),
      ("capacity", .int 200),
      ("location", .dict
        [("section", .str "North Stand"), ("level", .int 1),
         ("position", .dict [("x", .int (-75)), ("y", .int 5), ("z", .int (-60))])])]),
   ("density_thresholds", .dict
     [("normal", .int 60), ("moderate", .int 100), ("high", .int 150),
      ("critical", .int 200)]),
   ("camera", .dict
     [("device_index", .int 0), ("width", .int 1920), ("height", .int 1080),
      ("fps", .int 30), ("rotation", .int 0)]),
   ("models", .dict
     [("people_counter", .str "models/yolov8n.pt"),
      ("behavior_analyzer", .str "models/behavior_lstm.h5"),
      ("emergency_detector", .str "models/emergency_cnn.h5"),
      ("confidence_threshold", .rat (1/2)), ("sequence_length", .int 16)]),
   ("mqtt", .dict
     [("host", .str "localhost"), ("port", .int 1883), ("username", .null),
      ("password", .null), ("ssl", .bool false), ("keepalive", .int 60),
      ("qos", .int 1)]),
   ("processing", .dict
     [("frame_skip", .int 0), ("enable_people_counting", .bool true),
      ("enable_behavior_analysis", .bool true),
      ("enable_emergency_detection", .bool true)]),
   ("storage", .dict
     [("video_buffer_path", .str "data/video_buffer"),
      ("logs_path", .str "data/logs"),
      ("analytics_path", .str "data/analytics"), ("retention_hours", .int 24)]),
   ("monitoring", .dict
     [("interval", .int 30),
      ("thresholds", .dict
        [("cpu_temp", .rat 80), ("cpu_usage", .rat 90),
         ("memory_usage", .rat 95), ("disk_usage", .rat 90)])]),
   ("logging", .dict [("level", .str "INFO"), ("console_output", .bool true)]),
   ("debug", .dict
     [("enable_mock_models", .bool false), ("save_debug_images", .bool false),
      ("show_preview", .bool false)])]

/-- C9 counterexample: on the document with a = 7, set("a.b", 5) raises
TypeError instead of creating an intermediate map, so the claimed
set-then-get round trip fails for this key path and document — there is no
resulting document to read 5 back from. -/
theorem C9_config_set_cex :
    config_set (CVal.dict [("a", CVal.int 7)]) "a.b" (CVal.int 5) =
      .error "TypeError" := by
  rfl

/-- C9 (amended): get("mqtt.host", "x") on the default document returns
"localhost"; get of a path the document lacks returns the supplied
default; set creates every missing intermediate map (e.g. on the empty
document); and whenever set succeeds — that is, every existing entry along
the intermediate path is a map — a following get of the same key returns
the value just set.  When an intermediate entry exists with a non-map
value, set raises TypeError instead. -/
theorem C9_config_dotted_access :
    (config_get _get_default_config "mqtt.host" (.str "x") = .str "localhost") ∧
    (∀ (doc : CVal) (key : String) (dflt : CVal),
      getPath doc (pySplitDot key) = none → config_get doc key dflt = dflt) ∧
    (config_set (CVal.dict []) "a.b.c" (CVal.int 5) =
      .ok (.dict [("a", .dict [("b", .dict [("c", CVal.int 5)])])])) ∧
    (∀ (doc : CVal) (key : String) (v doc2 : CVal),
      config_set doc key v = .ok doc2 →
      ∀ dflt, config_get doc2 key dflt = v) := by
  refine ⟨by rfl, fun doc key dflt h => by simp [config_get, h], by rfl,
    fun doc key v doc2 h dflt => ?_⟩
  have hg := setPath_getPath (pySplitDot key) doc v doc2 h
  simp [config_get, hg]

theorem C9_config_dotted_access_witness :
    getPath (CVal.int 3) (pySplitDot "a.b") = none ∧
    config_get (CVal.int 3) "a.b" (.str "fallback") = .str "fallback" ∧
    config_set (CVal.dict []) "a.b.c" (CVal.int 5) =
      .ok (.dict [("a", .dict [("b", .dict [("c", CVal.int 5)])])]) ∧
    config_get (.dict [("a", .dict [("b", .dict [("c", CVal.int 5)])])])
      "a.b.c" .null = CVal.int 5 :=
  ⟨rfl,
   C9_config_dotted_access.2.1 (CVal.int 3) "a.b" (.str "fallback") rfl,
   rfl,
   C9_config_dotted_access.2.2.2 (CVal.dict []) "a.b.c" (CVal.int 5)
     (.dict [("a", .dict [("b", .dict [("c", CVal.int 5)])])]) rfl .null⟩

/-! ### API Server: GET /api/alerts (api_server.py get_alerts)

The handler computes alerts = alert_history[-limit:], filters by the
severity query parameter when it is truthy (present and non-empty), and
returns the list reversed (newest first).  limit is int(request arg),
which can be any integer: Python's a[-limit:] takes the last limit
entries for positive limit, but for limit = 0 the slice a[-0:] is a[0:],
the whole list. -/

/-- The fields of a ring entry that the alerts endpoint inspects: an
identifying payload and payload.get('severity'). -/
structure ApiAlert where
  data : String
  severity : Option String
deriving DecidableEq, Repr

/-- Python l[-limit:] for an arbitrary integer limit. -/
def pySliceLast {α : Type} (l : List α) (limit : ℤ) : List α :=
  if 0 < limit then l.drop (l.length - limit.toNat)
  else l.drop (-limit).toNat

/-- Model of api_server.get_alerts: slice the last limit entries, filter by
a truthy severity, reverse. -/
def get_alerts (ring : List ApiAlert) (limit : ℤ) (severity : Option String) :
    List ApiAlert :=
  let alerts := pySliceLast ring limit
  let alerts := match severity with
    | some s => if s ≠ "" then alerts.filter (fun (a : ApiAlert) => decide (a.severity = some s))
                else alerts
    | none => alerts
  alerts.reverse

/-- Response the claim describes: exactly the severity-matching alerts
among the most recent L ring entries, newest first (truncate to the last
L entries, then filter, then reverse). -/
def spec_get_alerts (ring : List ApiAlert) (l : ℕ) (severity : Option String) :
    List ApiAlert :=
  let lastL := ring.drop (ring.length - l)
  let matching := match severity with
    | some s => if s ≠ "" then lastL.filter (fun (a : ApiAlert) => decide (a.severity = some s))
                else lastL
    | none => lastL
  matching.reverse

/-- C10 counterexample: at limit = 0 the claim predicts an empty response
(no entries among the last 0), but alert_history[-0:] is the whole list,
so the handler returns every matching alert in the ring. -/
theorem C10_get_alerts_cex :
    get_alerts [⟨"a1", some "critical"⟩, ⟨"a2", some "critical"⟩] 0 (some "critical") =
      [⟨"a2", some "critical"⟩, ⟨"a1", some "critical"⟩] ∧
    spec_get_alerts [⟨"a1", some "critical"⟩, ⟨"a2", some "critical"⟩] 0 (some "critical") =
      [] ∧
    get_alerts [⟨"a1", some "critical"⟩, ⟨"a2", some "critical"⟩] 0 (some "critical") ≠
      spec_get_alerts [⟨"a1", some "critical"⟩, ⟨"a2", some "critical"⟩] 0
        (some "critical") := by
  refine ⟨by rfl, by rfl, by decide⟩

/-- C10 (amended): for every requested limit L of at least 1 the handler
truncates to the most recent L ring entries first and filters by severity
only afterwards, returning exactly the matching alerts among those last L
entries newest first; consequently the response can hold fewer than L
matches even when more matching alerts sit earlier in the ring (the
concrete conjunct: a ring with two critical alerts followed by a normal
one answers limit 1, severity critical with an empty list).  At L = 0 the
handler instead answers from the whole ring. -/
theorem C10_get_alerts_truncate_then_filter :
    (∀ (ring : List ApiAlert) (limit : ℤ) (severity : Option String),
      1 ≤ limit →
      get_alerts ring limit severity = spec_get_alerts ring limit.toNat severity) ∧
    (get_alerts [⟨"a1", some "critical"⟩, ⟨"a2", some "critical"⟩,
        ⟨"a3", some "normal"⟩] 1 (some "critical") = [] ∧
     2 ≤ (([⟨"a1", some "critical"⟩, ⟨"a2", some "critical"⟩,
        ⟨"a3", some "normal"⟩] : List ApiAlert).filter
          (fun (a : ApiAlert) => decide (a.severity = some "critical"))).length) := by
  refine ⟨fun ring limit severity h => ?_, by rfl, by decide⟩
  unfold get_alerts spec_get_alerts pySliceLast
  rw [if_pos (by omega)]

theorem C10_get_alerts_truncate_then_filter_witness :
    1 ≤ (2 : ℤ) ∧
    get_alerts [⟨"a1", some "critical"⟩, ⟨"a2", some "high"⟩,
        ⟨"a3", some "critical"⟩] 2 (some "critical") =
      spec_get_alerts [⟨"a1", some "critical"⟩, ⟨"a2", some "high"⟩,
        ⟨"a3", some "critical"⟩] ((2 : ℤ)).toNat (some "critical") :=
  ⟨by decide,
   C10_get_alerts_truncate_then_filter.1
     [⟨"a1", some "critical"⟩, ⟨"a2", some "high"⟩, ⟨"a3", some "critical"⟩]
     2 (some "critical") (by decide)⟩

end DSHIELD
